import Mathlib

/-!
Verification of the subscription/usage-record resource module of a Rust
Stripe client binding (src/resources/subscription.rs).

The module is a typed veneer over HTTP: parameter structures are serialized
(serde derive semantics, with skip_serializing_if on optional fields),
resource structures are deserialized from response JSON (serde derive
semantics), and five thin operations compose URL paths and delegate to a
shared client.

Embedding conventions:
  * JSON values are modelled by the inductive Json below; JSON numbers are
    modelled as integers (the claims under study never depend on fractional
    float values, only on field presence and pass-through equality), so the
    Rust f64 fields carry the same integer model.
  * Rust u64 is Nat, i64 (Timestamp) is Int, strings are String.
  * The shared client, the opaque error type, and the sibling resource
    types (Plan, Discount, the pagination List, Metadata) live in files of
    the repository that are not part of the source under study; they are
    modelled from the spec, marked as such in their doc comments.
  * Effects are explicit: the wall-clock now value is a parameter, and each
    operation returns its result together with the list of HTTP calls it
    performed, so that "the network call is never invoked" is a statement
    about that list.
-/

namespace StripeRs

/-- JSON values. Numbers are modelled as integers: the resource fields under
study are identifiers, booleans, strings, unix timestamps and counts, and no
claim depends on fractional numeric values. -/
inductive Json where
  | null : Json
  | bool (b : Bool) : Json
  | num (n : Int) : Json
  | str (s : String) : Json
  | arr (elems : List Json) : Json
  | obj (fields : List (String × Json)) : Json
deriving Repr

/-- Unix timestamp, Rust type i64 (params::Timestamp). -/
abbrev Timestamp : Type := Int

/-- Model of the Rust f64 fields. JSON numbers are modelled as integers, see
the module comment; no claim depends on fractional values. -/
abbrev F64 : Type := Int

/-- Modelled from the spec: params::Metadata (the metadata map) is defined in
a module of the repository not included in the source under study; the spec
calls it a metadata map, modelled as an association list of strings. -/
abbrev Metadata : Type := List (String × String)

/-- Modelled from the spec: the qs (serde_qs) encoding error type of the
external query-string crate; cancel propagates it before the network call. -/
inductive QsError where
  | unsupported (msg : String) : QsError
deriving Repr

/-- Modelled from the spec: the single opaque error type (error::Error).
All failures, network, HTTP-status, encoding, deserialization, surface as
this one type and are propagated unchanged. -/
inductive Error where
  | network (msg : String) : Error
  | httpStatus (code : Nat) : Error
  | qs (e : QsError) : Error
  | deserialize (msg : String) : Error
deriving Repr

/-- One HTTP call issued through the shared client, recorded so that
theorems can speak about which network calls an operation performs. -/
inductive HttpCall where
  | get (path : String) : HttpCall
  | post (path : String) (body : Json) : HttpCall
  | delete (path : String) : HttpCall
deriving Repr

/-- Modelled from the spec: the shared client (client::Client) transports
requests and yields either a response JSON body or the opaque error. It is
modelled as one response oracle per HTTP verb. -/
structure Client where
  getResp : String → Except Error Json
  postResp : String → Json → Except Error Json
  deleteResp : String → Except Error Json

/-- Map the error of an Except, used to fold deserialization failures into
the opaque error type. -/
def exceptMapErr (f : ε → ε') : Except ε α → Except ε' α
  | Except.ok a => Except.ok a
  | Except.error e => Except.error (f e)

/-- Modelled from the spec: the client's generic typed GET deserializes the
response body and surfaces every failure as the opaque error. The result is
paired with the list of HTTP calls performed. -/
def Client.get (c : Client) (fromJson : Json → Except String α) (path : String) :
    Except Error α × List HttpCall :=
  ((c.getResp path).bind fun j => exceptMapErr Error.deserialize (fromJson j),
   [HttpCall.get path])

/-- Modelled from the spec: the client's generic typed POST serializes the
body, deserializes the response and surfaces every failure as the opaque
error. -/
def Client.post (c : Client) (fromJson : Json → Except String α) (path : String)
    (body : Json) : Except Error α × List HttpCall :=
  ((c.postResp path body).bind fun j => exceptMapErr Error.deserialize (fromJson j),
   [HttpCall.post path body])

/-- Modelled from the spec: the client's generic typed DELETE. -/
def Client.delete (c : Client) (fromJson : Json → Except String α) (path : String) :
    Except Error α × List HttpCall :=
  ((c.deleteResp path).bind fun j => exceptMapErr Error.deserialize (fromJson j),
   [HttpCall.delete path])

/-- CancelParams (subscription.rs lines 8-12): one optional field, skipped
when None. The Rust derive(Default) instance is CancelParams.default below. -/
structure CancelParams where
  at_period_end : Option Bool
deriving Repr

/-- The derive(Default) value of CancelParams: every optional field None. -/
def CancelParams.default : CancelParams := { at_period_end := none }

/-- ItemParams (subscription.rs lines 14-19): required plan, optional
quantity skipped when None. -/
structure ItemParams where
  plan : String
  quantity : Option Nat
deriving Repr

/-- TrialEnd (subscription.rs lines 55-60): serde(untagged) enum of a bare
timestamp or a bare special string. -/
inductive TrialEnd where
  | timestamp (t : Timestamp) : TrialEnd
  | special (s : String) : TrialEnd

/-- SubscriptionParams (subscription.rs lines 24-52): every field optional
and skipped when None, in the declared serde field order. -/
structure SubscriptionParams where
  customer : Option String
  application_fee_percent : Option F64
  coupon : Option String
  items : Option (List ItemParams)
  metadata : Option Metadata
  plan : Option String
  prorate : Option Bool
  proration_date : Option Timestamp
  quantity : Option Nat
  source : Option String
  tax_percent : Option F64
  trial_end : Option TrialEnd
  trial_period_days : Option Nat

/-- The derive(Default) value of SubscriptionParams: every field None. -/
def SubscriptionParams.default : SubscriptionParams :=
  { customer := none, application_fee_percent := none, coupon := none,
    items := none, metadata := none, plan := none, prorate := none,
    proration_date := none, quantity := none, source := none,
    tax_percent := none, trial_end := none, trial_period_days := none }

/-- UsageRecordParams (subscription.rs lines 133-139): required timestamp and
quantity, optional action skipped when None. -/
structure UsageRecordParams where
  timestamp : Timestamp
  quantity : Nat
  action : Option String
deriving Repr

/-- UsageRecordAction (subscription.rs lines 142-145). -/
inductive UsageRecordAction where
  | increment : UsageRecordAction
  | set : UsageRecordAction
deriving Repr

/-- UsageRecordAction::name (subscription.rs lines 148-153). -/
def UsageRecordAction.name : UsageRecordAction → String
  | UsageRecordAction.increment => "increment"
  | UsageRecordAction.set => "set"

/-- UsageRecordParams::create (subscription.rs lines 158-162). The Rust body
reads the wall clock (Utc::now().timestamp()); that effect is made explicit
as the now argument supplied by the environment at the moment of the call. -/
def UsageRecordParams.create (now : Timestamp) (quantity : Nat)
    (action : Option UsageRecordAction) : UsageRecordParams :=
  { timestamp := now, quantity := quantity,
    action := action.map UsageRecordAction.name }

/-- Serde serialization of one optional struct field carrying
skip_serializing_if Option::is_none: a set field contributes its key-value
pair, an unset field contributes nothing. -/
def optField (k : String) (f : α → Json) : Option α → List (String × Json)
  | none => []
  | some a => [(k, f a)]

/-- Serde(untagged) serialization of TrialEnd: each variant serializes as its
bare payload, with no variant tag or wrapper. -/
def serializeTrialEnd : TrialEnd → Json
  | TrialEnd.timestamp t => Json.num t
  | TrialEnd.special s => Json.str s

/-- Serde serialization of Metadata as a JSON object of strings. -/
def serializeMetadata (m : Metadata) : Json :=
  Json.obj (m.map fun kv => (kv.fst, Json.str kv.snd))

/-- Serde serialization of ItemParams: the field list of the serialized
object, in declared field order. -/
def serializeItemParamsFields (p : ItemParams) : List (String × Json) :=
  [("plan", Json.str p.plan)] ++ optField "quantity" (fun n => Json.num (Int.ofNat n)) p.quantity

/-- Serde serialization of ItemParams as a JSON object. -/
def serializeItemParams (p : ItemParams) : Json :=
  Json.obj (serializeItemParamsFields p)

/-- Serde serialization of CancelParams: the field list of the serialized
object. -/
def serializeCancelParamsFields (p : CancelParams) : List (String × Json) :=
  optField "at_period_end" Json.bool p.at_period_end

/-- Serde serialization of SubscriptionParams: the field list of the
serialized object, in declared field order, each optional field skipped when
None. -/
def serializeSubscriptionParamsFields (p : SubscriptionParams) : List (String × Json) :=
  optField "customer" Json.str p.customer
    ++ optField "application_fee_percent" (fun x => Json.num x) p.application_fee_percent
    ++ optField "coupon" Json.str p.coupon
    ++ optField "items" (fun l => Json.arr (l.map serializeItemParams)) p.items
    ++ optField "metadata" serializeMetadata p.metadata
    ++ optField "plan" Json.str p.plan
    ++ optField "prorate" Json.bool p.prorate
    ++ optField "proration_date" (fun t => Json.num t) p.proration_date
    ++ optField "quantity" (fun n => Json.num (Int.ofNat n)) p.quantity
    ++ optField "source" Json.str p.source
    ++ optField "tax_percent" (fun x => Json.num x) p.tax_percent
    ++ optField "trial_end" serializeTrialEnd p.trial_end
    ++ optField "trial_period_days" (fun n => Json.num (Int.ofNat n)) p.trial_period_days

/-- Serde serialization of SubscriptionParams as a JSON object. -/
def serializeSubscriptionParams (p : SubscriptionParams) : Json :=
  Json.obj (serializeSubscriptionParamsFields p)

/-- Serde serialization of UsageRecordParams: the field list of the
serialized object; timestamp and quantity always present, action skipped
when None. -/
def serializeUsageRecordParamsFields (p : UsageRecordParams) : List (String × Json) :=
  [("timestamp", Json.num p.timestamp), ("quantity", Json.num (p.quantity : Int))]
    ++ optField "action" Json.str p.action

/-- Serde serialization of UsageRecordParams as a JSON object. -/
def serializeUsageRecordParams (p : UsageRecordParams) : Json :=
  Json.obj (serializeUsageRecordParamsFields p)

/-- The key list of a serialized field list. -/
def fieldKeys (l : List (String × Json)) : List String :=
  l.map Prod.fst

/-- The serde_qs query-string encoding of CancelParams (qs::to_string in
subscription.rs line 125). A skipped None field contributes nothing; the one
boolean field encodes as key=true or key=false. On this struct the encoder
always succeeds; the Except carries the crate's fallible signature. -/
def qsToString (p : CancelParams) : Except QsError String :=
  Except.ok (match p.at_period_end with
    | none => ""
    | some b => "at_period_end=" ++ (if b then "true" else "false"))

/-- Modelled from the spec: the Plan resource is defined in a sibling module
of the repository not included in the source under study and the spec does
not describe its fields; it is modelled as a carrier of its response JSON. -/
structure Plan where
  raw : Json

/-- Modelled from the spec: the Discount resource, a sibling module not
included; modelled as a carrier of its response JSON. -/
structure Discount where
  raw : Json

/-- Modelled from the spec: params::List, the pagination list wrapper of the
repository, not included in the source under study; modelled by its data
items, read from the data key of the response object. -/
structure StripeList (α : Type) where
  data : List α

/-- Association lookup in a JSON object's field list, first match wins. -/
def jLookup (k : String) : List (String × Json) → Option Json
  | [] => none
  | (k', v) :: rest => if k' = k then some v else jLookup k rest

/-- Serde deserialization of a Rust String field from a JSON value. -/
def dStr : Json → Except String String
  | Json.str s => Except.ok s
  | _ => Except.error "invalid type: expected a string"

/-- Serde deserialization of a Rust bool field. -/
def dBool : Json → Except String Bool
  | Json.bool b => Except.ok b
  | _ => Except.error "invalid type: expected a boolean"

/-- Serde deserialization of a Rust i64 (Timestamp) field. -/
def dInt : Json → Except String Int
  | Json.num n => Except.ok n
  | _ => Except.error "invalid type: expected a number"

/-- Serde deserialization of a Rust u64 field: a negative number is out of
range. -/
def dNat : Json → Except String Nat
  | Json.num n => if n < 0 then Except.error "invalid value: negative integer for u64"
                  else Except.ok n.toNat
  | _ => Except.error "invalid type: expected a number"

/-- Serde deserialization of a required struct field: the key must be present
in the object. -/
def dField (fs : List (String × Json)) (k : String) (d : Json → Except String α) :
    Except String α :=
  match jLookup k fs with
  | some v => d v
  | none => Except.error ("missing field " ++ k)

/-- Serde deserialization of an Option struct field: a missing key and an
explicit null both give None, any other value goes through the inner
deserializer. -/
def dOptField (fs : List (String × Json)) (k : String) (d : Json → Except String α) :
    Except String (Option α) :=
  match jLookup k fs with
  | none => Except.ok none
  | some Json.null => Except.ok none
  | some v => (d v).map some

/-- Deserialization of the spec-modelled Plan: the response JSON is carried
verbatim. -/
def planFromJson (j : Json) : Except String Plan :=
  Except.ok { raw := j }

/-- Deserialization of the spec-modelled Discount: the response JSON is
carried verbatim. -/
def discountFromJson (j : Json) : Except String Discount :=
  Except.ok { raw := j }

/-- Serde deserialization of Metadata: a JSON object whose values are all
strings. -/
def metadataFromJson : Json → Except String Metadata
  | Json.obj fs => fs.mapM fun kv => (dStr kv.snd).map fun s => (kv.fst, s)
  | _ => Except.error "invalid type: expected an object"

/-- Serde deserialization of the spec-modelled pagination list: the items sit
under the data key of the response object. -/
def stripeListFromJson (dElem : Json → Except String α) : Json → Except String (StripeList α)
  | Json.obj fs => do
      let d ← dField fs "data" fun j =>
        match j with
        | Json.arr elems => elems.mapM dElem
        | _ => Except.error "invalid type: expected an array"
      Except.ok { data := d }
  | _ => Except.error "invalid type: expected an object"

/-- SubscriptionItem (subscription.rs lines 65-71). -/
structure SubscriptionItem where
  id : String
  created : Timestamp
  plan : Plan
  quantity : Option Nat

/-- Serde derive(Deserialize) for SubscriptionItem: required id, created and
plan, optional quantity. -/
def subscriptionItemFromJson : Json → Except String SubscriptionItem
  | Json.obj fs => do
      let id ← dField fs "id" dStr
      let created ← dField fs "created" dInt
      let plan ← dField fs "plan" planFromJson
      let quantity ← dOptField fs "quantity" dNat
      Except.ok { id := id, created := created, plan := plan, quantity := quantity }
  | _ => Except.error "invalid type: expected an object"

/-- Subscription (subscription.rs lines 76-98). The status field is a plain
String, with the source comment listing (trialing, active, past_due,
canceled, unpaid) as documentation only. -/
structure Subscription where
  id : String
  application_fee_percent : Option F64
  cancel_at_period_end : Bool
  canceled_at : Option Timestamp
  created : Option Timestamp
  current_period_start : Timestamp
  current_period_end : Timestamp
  customer : String
  discount : Option Discount
  ended_at : Option Timestamp
  items : StripeList SubscriptionItem
  livemode : Bool
  metadata : Metadata
  plan : Plan
  quantity : Option Nat
  start : Timestamp
  status : String
  tax_percent : Option F64
  trial_start : Option Timestamp
  trial_end : Option Timestamp

/-- Serde derive(Deserialize) for Subscription, field by field in declared
order; Option fields tolerate a missing key or null, all other fields are
required. -/
def subscriptionFromJson : Json → Except String Subscription
  | Json.obj fs => do
      let id ← dField fs "id" dStr
      let application_fee_percent ← dOptField fs "application_fee_percent" dInt
      let cancel_at_period_end ← dField fs "cancel_at_period_end" dBool
      let canceled_at ← dOptField fs "canceled_at" dInt
      let created ← dOptField fs "created" dInt
      let current_period_start ← dField fs "current_period_start" dInt
      let current_period_end ← dField fs "current_period_end" dInt
      let customer ← dField fs "customer" dStr
      let discount ← dOptField fs "discount" discountFromJson
      let ended_at ← dOptField fs "ended_at" dInt
      let items ← dField fs "items" (stripeListFromJson subscriptionItemFromJson)
      let livemode ← dField fs "livemode" dBool
      let metadata ← dField fs "metadata" metadataFromJson
      let plan ← dField fs "plan" planFromJson
      let quantity ← dOptField fs "quantity" dNat
      let start ← dField fs "start" dInt
      let status ← dField fs "status" dStr
      let tax_percent ← dOptField fs "tax_percent" dInt
      let trial_start ← dOptField fs "trial_start" dInt
      let trial_end ← dOptField fs "trial_end" dInt
      Except.ok { id := id, application_fee_percent := application_fee_percent,
                  cancel_at_period_end := cancel_at_period_end,
                  canceled_at := canceled_at, created := created,
                  current_period_start := current_period_start,
                  current_period_end := current_period_end, customer := customer,
                  discount := discount, ended_at := ended_at, items := items,
                  livemode := livemode, metadata := metadata, plan := plan,
                  quantity := quantity, start := start, status := status,
                  tax_percent := tax_percent, trial_start := trial_start,
                  trial_end := trial_end }
  | _ => Except.error "invalid type: expected an object"

/-- UsageRecord (subscription.rs lines 168-176). -/
structure UsageRecord where
  id : String
  object : String
  livemode : Bool
  quantity : Nat
  subscription_item : String
  timestamp : Timestamp

/-- Serde derive(Deserialize) for UsageRecord: every field required. -/
def usageRecordFromJson : Json → Except String UsageRecord
  | Json.obj fs => do
      let id ← dField fs "id" dStr
      let object ← dField fs "object" dStr
      let livemode ← dField fs "livemode" dBool
      let quantity ← dField fs "quantity" dNat
      let subscription_item ← dField fs "subscription_item" dStr
      let timestamp ← dField fs "timestamp" dInt
      Except.ok { id := id, object := object, livemode := livemode,
                  quantity := quantity, subscription_item := subscription_item,
                  timestamp := timestamp }
  | _ => Except.error "invalid type: expected an object"

/-- Subscription::create (subscription.rs lines 104-106): POST the serialized
params to /subscriptions. -/
def Subscription.create (c : Client) (params : SubscriptionParams) :
    Except Error Subscription × List HttpCall :=
  Client.post c subscriptionFromJson "/subscriptions" (serializeSubscriptionParams params)

/-- Subscription::retrieve (subscription.rs lines 111-113): GET the item path
interpolated from the identifier. -/
def Subscription.retrieve (c : Client) (subscription_id : String) :
    Except Error Subscription × List HttpCall :=
  Client.get c subscriptionFromJson ("/subscriptions/" ++ subscription_id)

/-- Subscription::update (subscription.rs lines 117-119): POST the serialized
params to the item path. -/
def Subscription.update (c : Client) (subscription_id : String)
    (params : SubscriptionParams) : Except Error Subscription × List HttpCall :=
  Client.post c subscriptionFromJson ("/subscriptions/" ++ subscription_id)
    (serializeSubscriptionParams params)

/-- Subscription::cancel (subscription.rs lines 124-126): encode the params
as a query string; the Rust question-mark operator returns an encoding error
before the client is touched, otherwise DELETE the item path with the query
string appended after a question mark that the format string always
contains. -/
def Subscription.cancel (c : Client) (subscription_id : String)
    (params : CancelParams) : Except Error Subscription × List HttpCall :=
  match qsToString params with
  | Except.error e => (Except.error (Error.qs e), [])
  | Except.ok q =>
      Client.delete c subscriptionFromJson
        ("/subscriptions/" ++ subscription_id ++ "?" ++ q)

/-- UsageRecord::create (subscription.rs lines 183-185): POST the serialized
params to the nested usage_records collection path under the subscription
item identifier. -/
def UsageRecord.create (c : Client) (subscription_item_id : String)
    (params : UsageRecordParams) : Except Error UsageRecord × List HttpCall :=
  Client.post c usageRecordFromJson
    ("/subscription_items/" ++ subscription_item_id ++ "/usage_records")
    (serializeUsageRecordParams params)

/-- The keys contributed by one optional field: its own key when set, nothing
when unset. -/
theorem optField_map_fst (k : String) (f : α → Json) (o : Option α) :
    (optField k f o).map Prod.fst = if o.isSome then [k] else [] := by
  cases o <;> rfl

/-- Presence is preserved by mapping a function over an optional value. -/
theorem isSome_bind_some (o : Option α) (f : α → β) :
    (o.bind fun a => some (f a)).isSome = o.isSome := by
  cases o <;> rfl

/-- C1: for every parameter structure (SubscriptionParams, CancelParams,
ItemParams, UsageRecordParams) and every combination of its optional fields,
the serialized payload's key list consists of exactly the required keys plus
the keys of the set (Some) optional fields, each unset (None) field being
omitted. -/
theorem params_serialize_exactly_set_fields :
    (∀ p : SubscriptionParams,
      fieldKeys (serializeSubscriptionParamsFields p) =
        (if p.customer.isSome then ["customer"] else [])
          ++ (if p.application_fee_percent.isSome then ["application_fee_percent"] else [])
          ++ (if p.coupon.isSome then ["coupon"] else [])
          ++ (if p.items.isSome then ["items"] else [])
          ++ (if p.metadata.isSome then ["metadata"] else [])
          ++ (if p.plan.isSome then ["plan"] else [])
          ++ (if p.prorate.isSome then ["prorate"] else [])
          ++ (if p.proration_date.isSome then ["proration_date"] else [])
          ++ (if p.quantity.isSome then ["quantity"] else [])
          ++ (if p.source.isSome then ["source"] else [])
          ++ (if p.tax_percent.isSome then ["tax_percent"] else [])
          ++ (if p.trial_end.isSome then ["trial_end"] else [])
          ++ (if p.trial_period_days.isSome then ["trial_period_days"] else [])) ∧
    (∀ p : CancelParams,
      fieldKeys (serializeCancelParamsFields p) =
        (if p.at_period_end.isSome then ["at_period_end"] else [])) ∧
    (∀ p : ItemParams,
      fieldKeys (serializeItemParamsFields p) =
        ["plan"] ++ (if p.quantity.isSome then ["quantity"] else [])) ∧
    (∀ p : UsageRecordParams,
      fieldKeys (serializeUsageRecordParamsFields p) =
        ["timestamp", "quantity"] ++ (if p.action.isSome then ["action"] else [])) := by
  refine ⟨fun p => ?_, fun p => ?_, fun p => ?_, fun p => ?_⟩ <;>
    simp [fieldKeys, serializeSubscriptionParamsFields, serializeCancelParamsFields,
          serializeItemParamsFields, serializeUsageRecordParamsFields, optField_map_fst,
          isSome_bind_some]

/-- C10: TrialEnd serializes untagged: the Timestamp variant as the bare
number and the Special variant as the bare string, with no variant tag or
wrapper in the payload. -/
theorem trialEnd_serializes_untagged :
    (∀ t : Timestamp, serializeTrialEnd (TrialEnd.timestamp t) = Json.num t) ∧
    (∀ s : String, serializeTrialEnd (TrialEnd.special s) = Json.str s) :=
  ⟨fun _ => rfl, fun _ => rfl⟩

/-- C6: UsageRecordParams::create stamps the now value supplied by the
environment at the moment of the call into the timestamp field and copies
the given quantity into the quantity field. -/
theorem usageRecordParams_create_stamps_now_and_quantity :
    ∀ (now : Timestamp) (q : Nat) (a : Option UsageRecordAction),
      (UsageRecordParams.create now q a).timestamp = now ∧
      (UsageRecordParams.create now q a).quantity = q :=
  fun _ _ _ => ⟨rfl, rfl⟩

/-- C2 counterexample: calling UsageRecordParams::create with action None at
quantity 5 and clock 0 leaves the action field None, and the serialized
request carries no action key at all, so the request does not set the action
to the additive mode increment. -/
theorem usageRecordParams_create_none_action_cex :
    (UsageRecordParams.create 0 5 none).action = none ∧
    jLookup "action" (serializeUsageRecordParamsFields (UsageRecordParams.create 0 5 none)) = none ∧
    serializeUsageRecordParams (UsageRecordParams.create 0 5 none) =
      Json.obj [("timestamp", Json.num 0), ("quantity", Json.num 5)] :=
  ⟨rfl, rfl, rfl⟩

/-- C2 amended: when UsageRecordParams::create is called with action None,
the built parameters carry action None and the serialized request omits the
action field entirely, leaving the additive default (increment) to the
remote API rather than stamping it into the request. -/
theorem usageRecordParams_create_none_action_omitted :
    ∀ (now : Timestamp) (q : Nat),
      (UsageRecordParams.create now q none).action = none ∧
      fieldKeys (serializeUsageRecordParamsFields (UsageRecordParams.create now q none)) =
        ["timestamp", "quantity"] :=
  fun _ _ => ⟨rfl, rfl⟩

/-- C4: the operations interpolate byte-exact URL paths and use the stated
HTTP verbs: create POSTs to /subscriptions, retrieve GETs the item path,
update POSTs to the item path, and UsageRecord::create POSTs to the nested
usage_records path. -/
theorem operations_use_stated_verbs_and_paths :
    ∀ (c : Client) (id : String) (sp : SubscriptionParams) (urp : UsageRecordParams),
      (Subscription.create c sp).2 =
        [HttpCall.post "/subscriptions" (serializeSubscriptionParams sp)] ∧
      (Subscription.retrieve c id).2 =
        [HttpCall.get ("/subscriptions/" ++ id)] ∧
      (Subscription.update c id sp).2 =
        [HttpCall.post ("/subscriptions/" ++ id) (serializeSubscriptionParams sp)] ∧
      (UsageRecord.create c id urp).2 =
        [HttpCall.post ("/subscription_items/" ++ id ++ "/usage_records")
          (serializeUsageRecordParams urp)] :=
  fun _ _ _ _ => ⟨rfl, rfl, rfl, rfl⟩

/-- C9: cancelling with the default CancelParams (at_period_end None) issues
the DELETE on the item path with the question-mark separator appended even
though the encoded query string is empty. -/
theorem cancel_default_params_appends_question_mark :
    ∀ (c : Client) (id : String),
      (Subscription.cancel c id CancelParams.default).2 =
        [HttpCall.delete ("/subscriptions/" ++ id ++ "?")] := by
  intro c id
  show [HttpCall.delete ("/subscriptions/" ++ id ++ "?" ++ "")] = _
  rw [String.append_empty]

/-- C3: Subscription::cancel first runs the query-string encoder; were the
encoder to fail, the error would be returned as the opaque qs error with an
empty HTTP-call trace, the client's delete never being invoked, and on
success the single DELETE call carries the encoded query. On CancelParams
the encoder is in fact total, so the failure branch is unreachable. -/
theorem cancel_qs_failure_short_circuits_before_delete :
    ∀ (c : Client) (id : String) (p : CancelParams),
      (Subscription.cancel c id p).1 =
        (match qsToString p with
          | Except.error e => Except.error (Error.qs e)
          | Except.ok q =>
            (c.deleteResp ("/subscriptions/" ++ id ++ "?" ++ q)).bind
              fun j => exceptMapErr Error.deserialize (subscriptionFromJson j)) ∧
      (Subscription.cancel c id p).2 =
        (match qsToString p with
          | Except.error _ => []
          | Except.ok q => [HttpCall.delete ("/subscriptions/" ++ id ++ "?" ++ q)]) :=
  fun _ _ _ => ⟨rfl, rfl⟩

/-- A client whose every oracle fails with one fixed error, used to witness
error propagation. -/
def failingClient (e : Error) : Client :=
  { getResp := fun _ => Except.error e,
    postResp := fun _ _ => Except.error e,
    deleteResp := fun _ => Except.error e }

/-- C5: every operation returns a Result whose error side is the one opaque
Error type, and a failure reported by the shared client is propagated to the
caller unchanged, with exactly one HTTP call and no retry. -/
theorem operations_propagate_client_error_unchanged :
    ∀ (c : Client) (e : Error) (id : String) (sp : SubscriptionParams)
      (cp : CancelParams) (urp : UsageRecordParams),
      (∀ path, c.getResp path = Except.error e) →
      (∀ path body, c.postResp path body = Except.error e) →
      (∀ path, c.deleteResp path = Except.error e) →
      ((Subscription.create c sp).1 = Except.error e ∧
        (Subscription.create c sp).2.length = 1) ∧
      ((Subscription.retrieve c id).1 = Except.error e ∧
        (Subscription.retrieve c id).2.length = 1) ∧
      ((Subscription.update c id sp).1 = Except.error e ∧
        (Subscription.update c id sp).2.length = 1) ∧
      ((Subscription.cancel c id cp).1 = Except.error e ∧
        (Subscription.cancel c id cp).2.length = 1) ∧
      ((UsageRecord.create c id urp).1 = Except.error e ∧
        (UsageRecord.create c id urp).2.length = 1) := by
  intro c e id sp cp urp hget hpost hdelete
  refine ⟨⟨?_, rfl⟩, ⟨?_, rfl⟩, ⟨?_, rfl⟩, ⟨?_, rfl⟩, ⟨?_, rfl⟩⟩
  · simp [Subscription.create, Client.post, hpost, Except.bind]
  · simp [Subscription.retrieve, Client.get, hget, Except.bind]
  · simp [Subscription.update, Client.post, hpost, Except.bind]
  · simp [Subscription.cancel, Client.delete, qsToString, hdelete, Except.bind]
  · simp [UsageRecord.create, Client.post, hpost, Except.bind]

/-- C5 witness: against a client whose every verb fails with a network
error, each of the five operations surfaces exactly that error after exactly
one HTTP call. -/
theorem operations_propagate_client_error_unchanged_witness :
    ((Subscription.create (failingClient (Error.network "down")) SubscriptionParams.default).1 =
        Except.error (Error.network "down") ∧
      (Subscription.create (failingClient (Error.network "down")) SubscriptionParams.default).2.length = 1) ∧
    ((Subscription.retrieve (failingClient (Error.network "down")) "sub_123").1 =
        Except.error (Error.network "down") ∧
      (Subscription.retrieve (failingClient (Error.network "down")) "sub_123").2.length = 1) ∧
    ((Subscription.update (failingClient (Error.network "down")) "sub_123" SubscriptionParams.default).1 =
        Except.error (Error.network "down") ∧
      (Subscription.update (failingClient (Error.network "down")) "sub_123" SubscriptionParams.default).2.length = 1) ∧
    ((Subscription.cancel (failingClient (Error.network "down")) "sub_123" CancelParams.default).1 =
        Except.error (Error.network "down") ∧
      (Subscription.cancel (failingClient (Error.network "down")) "sub_123" CancelParams.default).2.length = 1) ∧
    ((UsageRecord.create (failingClient (Error.network "down")) "si_123"
          { timestamp := 0, quantity := 1, action := none }).1 =
        Except.error (Error.network "down") ∧
      (UsageRecord.create (failingClient (Error.network "down")) "si_123"
          { timestamp := 0, quantity := 1, action := none }).2.length = 1) :=
  operations_propagate_client_error_unchanged (failingClient (Error.network "down"))
    (Error.network "down") "sub_123" SubscriptionParams.default CancelParams.default
    { timestamp := 0, quantity := 1, action := none }
    (fun _ => rfl) (fun _ _ => rfl) (fun _ => rfl)

/-- A minimal valid subscription response body carrying the given JSON value
in its status position; every required field present, every optional field
absent. -/
def subscriptionResponseFixture (status : Json) : Json :=
  Json.obj [("id", Json.str "sub_1"),
            ("cancel_at_period_end", Json.bool false),
            ("current_period_start", Json.num 100),
            ("current_period_end", Json.num 200),
            ("customer", Json.str "cus_1"),
            ("items", Json.obj [("data", Json.arr [])]),
            ("livemode", Json.bool false),
            ("metadata", Json.obj []),
            ("plan", Json.obj [("id", Json.str "plan_1")]),
            ("start", Json.num 100),
            ("status", status)]

/-- C7: the status field is an opaque string mirrored verbatim from the
remote JSON: deserialization accepts every string value for status, with no
validation against a closed set of lifecycle labels and no state-machine
check. -/
theorem subscription_status_accepts_any_string :
    ∀ s : String,
      subscriptionFromJson (subscriptionResponseFixture (Json.str s)) =
        Except.ok { id := "sub_1", application_fee_percent := none,
                    cancel_at_period_end := false, canceled_at := none,
                    created := none, current_period_start := 100,
                    current_period_end := 200, customer := "cus_1",
                    discount := none, ended_at := none, items := { data := [] },
                    livemode := false, metadata := [],
                    plan := { raw := Json.obj [("id", Json.str "plan_1")] },
                    quantity := none, start := 100, status := s,
                    tax_percent := none, trial_start := none,
                    trial_end := none } :=
  fun _ => rfl

/-- C8: a response JSON object that supplies every required field of a
resource structure with a value of the right shape deserializes successfully,
each field of the resulting structure equal to the corresponding JSON field,
and an optional field absent from the JSON deserializes to None (for the
SubscriptionItem block the optional quantity is quantified over presence and
absence at once). Covers Subscription, SubscriptionItem and UsageRecord. -/
theorem resources_deserialize_supplied_fields :
    (∀ (fs : List (String × Json)) (i cu st : String) (cape lv : Bool)
        (cps cpe sstart : Int) (itemsJ metaJ planJ : Json)
        (items : StripeList SubscriptionItem) (meta : Metadata),
      jLookup "id" fs = some (Json.str i) →
      jLookup "application_fee_percent" fs = none →
      jLookup "cancel_at_period_end" fs = some (Json.bool cape) →
      jLookup "canceled_at" fs = none →
      jLookup "created" fs = none →
      jLookup "current_period_start" fs = some (Json.num cps) →
      jLookup "current_period_end" fs = some (Json.num cpe) →
      jLookup "customer" fs = some (Json.str cu) →
      jLookup "discount" fs = none →
      jLookup "ended_at" fs = none →
      jLookup "items" fs = some itemsJ →
      stripeListFromJson subscriptionItemFromJson itemsJ = Except.ok items →
      jLookup "livemode" fs = some (Json.bool lv) →
      jLookup "metadata" fs = some metaJ →
      metadataFromJson metaJ = Except.ok meta →
      jLookup "plan" fs = some planJ →
      jLookup "quantity" fs = none →
      jLookup "start" fs = some (Json.num sstart) →
      jLookup "status" fs = some (Json.str st) →
      jLookup "tax_percent" fs = none →
      jLookup "trial_start" fs = none →
      jLookup "trial_end" fs = none →
      subscriptionFromJson (Json.obj fs) = Except.ok
        { id := i, application_fee_percent := none, cancel_at_period_end := cape,
          canceled_at := none, created := none, current_period_start := cps,
          current_period_end := cpe, customer := cu, discount := none,
          ended_at := none, items := items, livemode := lv, metadata := meta,
          plan := { raw := planJ }, quantity := none, start := sstart,
          status := st, tax_percent := none, trial_start := none,
          trial_end := none }) ∧
    (∀ (fs : List (String × Json)) (i : String) (cr : Int) (planJ : Json)
        (q : Option Nat),
      jLookup "id" fs = some (Json.str i) →
      jLookup "created" fs = some (Json.num cr) →
      jLookup "plan" fs = some planJ →
      jLookup "quantity" fs = (q.map fun n => Json.num (Int.ofNat n)) →
      subscriptionItemFromJson (Json.obj fs) = Except.ok
        { id := i, created := cr, plan := { raw := planJ }, quantity := q }) ∧
    (∀ (fs : List (String × Json)) (i ob si : String) (lv : Bool) (q : Nat)
        (ts : Int),
      jLookup "id" fs = some (Json.str i) →
      jLookup "object" fs = some (Json.str ob) →
      jLookup "livemode" fs = some (Json.bool lv) →
      jLookup "quantity" fs = some (Json.num (q : Int)) →
      jLookup "subscription_item" fs = some (Json.str si) →
      jLookup "timestamp" fs = some (Json.num ts) →
      usageRecordFromJson (Json.obj fs) = Except.ok
        { id := i, object := ob, livemode := lv, quantity := q,
          subscription_item := si, timestamp := ts }) := by
  refine ⟨?_, ?_, ?_⟩
  · intro fs i cu st cape lv cps cpe sstart itemsJ metaJ planJ items meta
      h1 h2 h3 h4 h5 h6 h7 h8 h9 h10 h11 h12 h13 h14 h15 h16 h17 h18 h19 h20 h21 h22
    simp only [subscriptionFromJson, dField, dOptField, dStr, dBool, dInt, planFromJson,
          h1, h2, h3, h4, h5, h6, h7, h8, h9, h10, h11, h12, h13, h14, h15, h16,
          h17, h18, h19, h20, h21, h22]
    rfl
  · intro fs i cr planJ q h1 h2 h3 h4
    cases q with
    | none =>
        simp only [Option.map_none'] at h4
        simp only [subscriptionItemFromJson, dField, dOptField, dStr, dInt, planFromJson,
              h1, h2, h3, h4]
        rfl
    | some n =>
        simp only [Option.map_some'] at h4
        have hn : ¬(Int.ofNat n < 0) := Int.not_lt.mpr (Int.ofNat_nonneg n)
        simp only [subscriptionItemFromJson, dField, dOptField, dStr, dInt, dNat,
              planFromJson, h1, h2, h3, h4, hn, if_neg, Int.toNat_ofNat]
        rfl
  · intro fs i ob si lv q ts h1 h2 h3 h4 h5 h6
    have hq : ¬((q : Int) < 0) := by omega
    simp only [usageRecordFromJson, dField, dStr, dBool, dInt, dNat,
          h1, h2, h3, h4, h5, h6, hq, if_neg, Int.toNat_natCast]
    rfl

/-- The field list of a concrete subscription-item response body. -/
def subscriptionItemFixtureFields : List (String × Json) :=
  [("id", Json.str "si_1"), ("created", Json.num 500),
   ("plan", Json.obj [("id", Json.str "plan_1")]), ("quantity", Json.num 2)]

/-- The structure the subscription-item fixture deserializes to. -/
def subscriptionItemFixtureValue : SubscriptionItem :=
  { id := "si_1", created := 500,
    plan := { raw := Json.obj [("id", Json.str "plan_1")] }, quantity := some 2 }

/-- The field list of a concrete subscription response body with every
required field present and every optional field absent. -/
def subscriptionFixtureFields : List (String × Json) :=
  [("id", Json.str "sub_1"),
   ("cancel_at_period_end", Json.bool false),
   ("current_period_start", Json.num 100),
   ("current_period_end", Json.num 200),
   ("customer", Json.str "cus_1"),
   ("items", Json.obj [("data", Json.arr [Json.obj subscriptionItemFixtureFields])]),
   ("livemode", Json.bool true),
   ("metadata", Json.obj [("color", Json.str "red")]),
   ("plan", Json.obj [("id", Json.str "plan_1")]),
   ("start", Json.num 100),
   ("status", Json.str "active")]

/-- The structure the subscription fixture deserializes to. -/
def subscriptionFixtureValue : Subscription :=
  { id := "sub_1", application_fee_percent := none, cancel_at_period_end := false,
    canceled_at := none, created := none, current_period_start := 100,
    current_period_end := 200, customer := "cus_1", discount := none,
    ended_at := none, items := { data := [subscriptionItemFixtureValue] },
    livemode := true, metadata := [("color", "red")],
    plan := { raw := Json.obj [("id", Json.str "plan_1")] }, quantity := none,
    start := 100, status := "active", tax_percent := none, trial_start := none,
    trial_end := none }

/-- The field list of a concrete usage-record response body. -/
def usageRecordFixtureFields : List (String × Json) :=
  [("id", Json.str "mbur_1"), ("object", Json.str "usage_record"),
   ("livemode", Json.bool false), ("quantity", Json.num 10),
   ("subscription_item", Json.str "si_1"), ("timestamp", Json.num 1000)]

/-- The structure the usage-record fixture deserializes to. -/
def usageRecordFixtureValue : UsageRecord :=
  { id := "mbur_1", object := "usage_record", livemode := false, quantity := 10,
    subscription_item := "si_1", timestamp := 1000 }

/-- C8 witness: the three concrete response fixtures deserialize to their
expected structures, by the round-trip theorem applied at those fixtures. -/
theorem resources_deserialize_supplied_fields_witness :
    subscriptionFromJson (Json.obj subscriptionFixtureFields) =
      Except.ok subscriptionFixtureValue ∧
    subscriptionItemFromJson (Json.obj subscriptionItemFixtureFields) =
      Except.ok subscriptionItemFixtureValue ∧
    usageRecordFromJson (Json.obj usageRecordFixtureFields) =
      Except.ok usageRecordFixtureValue :=
  ⟨resources_deserialize_supplied_fields.1 subscriptionFixtureFields
      "sub_1" "cus_1" "active" false true 100 200 100
      (Json.obj [("data", Json.arr [Json.obj subscriptionItemFixtureFields])])
      (Json.obj [("color", Json.str "red")])
      (Json.obj [("id", Json.str "plan_1")])
      { data := [subscriptionItemFixtureValue] } [("color", "red")]
      rfl rfl rfl rfl rfl rfl rfl rfl rfl rfl rfl rfl rfl rfl rfl rfl rfl rfl
      rfl rfl rfl rfl,
   resources_deserialize_supplied_fields.2.1 subscriptionItemFixtureFields
      "si_1" 500 (Json.obj [("id", Json.str "plan_1")]) (some 2) rfl rfl rfl rfl,
   resources_deserialize_supplied_fields.2.2 usageRecordFixtureFields
      "mbur_1" "usage_record" "si_1" false 10 1000 rfl rfl rfl rfl rfl rfl⟩

end StripeRs
